import Mathlib

/-!
Verification of the Task Manager Flask application (`src/app.py`, MongoDB
variant) against its natural-language specification.

The embedding below is a shallow translation of `app.py`.  Python `dict`
documents become Lean structures, MongoDB collections become Lean lists held
in a `DBState`, `request.form.get(...)` becomes `Option String` fields of a
form structure, and `datetime.utcnow()` / `date.today()` become explicit
parameters.  MongoDB ObjectIds are represented by their 24-character
lowercase hex string form; `insert_one`'s id generation is modelled by a
`nextOid` counter rendered in hex.  `float` form values are modelled as `ℚ`
(only parsing of plain decimal literals and order comparisons occur, where
`ℚ` and IEEE doubles agree).  Every task document stored by this
application carries a full field set, so `doc.get(key)` on those fields is
total.
-/

namespace TaskManager

/-- Calendar date, mirroring Python `datetime.date` (year, month, day). -/
structure PyDate where
  year : Nat
  month : Nat
  day : Nat
deriving DecidableEq, BEq

/-- Timestamp, mirroring Python `datetime.datetime` (seconds precision;
the application never sets microseconds on values it renders). -/
structure PyDateTime where
  date : PyDate
  hour : Nat
  minute : Nat
  second : Nat
deriving DecidableEq, BEq

/-- Boolean `<` test on `Nat`. -/
def natLt (a b : Nat) : Bool := decide (a < b)

/-- Date comparison `a < b`, as Python compares `date` values
(lexicographic on year, month, day). -/
def PyDate.blt (a b : PyDate) : Bool :=
  natLt a.year b.year ||
    (a.year == b.year &&
      (natLt a.month b.month || (a.month == b.month && natLt a.day b.day)))

/-- Timestamp comparison `a < b`, lexicographic as in Python. -/
def PyDateTime.blt (a b : PyDateTime) : Bool :=
  PyDate.blt a.date b.date ||
    (a.date == b.date &&
      (natLt a.hour b.hour ||
        (a.hour == b.hour &&
          (natLt a.minute b.minute ||
            (a.minute == b.minute && natLt a.second b.second)))))

/-- Timestamp comparison `a ≤ b`. -/
def PyDateTime.ble (a b : PyDateTime) : Bool :=
  PyDateTime.blt a b || a == b

/-- Zero-pad a number to two digits, as `strftime`/`isoformat` do. -/
def pad2 (n : Nat) : String :=
  if n < 10 then "0" ++ toString n else toString n

/-- Zero-pad a number to four digits, as `isoformat` renders years. -/
def pad4 (n : Nat) : String :=
  if n < 10 then "000" ++ toString n
  else if n < 100 then "00" ++ toString n
  else if n < 1000 then "0" ++ toString n
  else toString n

/-- The whitespace set of Python `str.strip()` (ASCII part; the
application's inputs are handled character-for-character). -/
def isPySpace (c : Char) : Bool :=
  c == ' ' || c == '\t' || c == '\n' || c == '\r' || c == '\x0b' || c == '\x0c'

/-- Python `str.strip()` on a character list. -/
def pyStripL (cs : List Char) : List Char :=
  ((cs.dropWhile isPySpace).reverse.dropWhile isPySpace).reverse

/-- Python `str.strip()`. -/
def pyStrip (s : String) : String := String.mk (pyStripL s.toList)

/-- Python `str.lower()` (ASCII case folding, as the inputs here are). -/
def pyLower (s : String) : String := String.mk (s.toList.map Char.toLower)

/-- Split a character list on `'-'` (Python `str.split("-")`): the
splitter always returns at least one (possibly empty) group. -/
def splitDash : List Char → List (List Char)
  | [] => [[]]
  | c :: rest =>
    let r := splitDash rest
    if c == '-' then [] :: r
    else
      match r with
      | [] => [[c]]
      | g :: gs => (c :: g) :: gs

/-- Python `date.isoformat()`: `YYYY-MM-DD`. -/
def PyDate.isoformat (d : PyDate) : String :=
  pad4 d.year ++ "-" ++ pad2 d.month ++ "-" ++ pad2 d.day

/-- Python `datetime.isoformat()` (microsecond = 0):
`YYYY-MM-DDTHH:MM:SS`. -/
def PyDateTime.isoformat (d : PyDateTime) : String :=
  d.date.isoformat ++ "T" ++ pad2 d.hour ++ ":" ++ pad2 d.minute ++ ":" ++ pad2 d.second

/-- Field max lengths, from the constants block of `app.py`. -/
def MAX_TITLE : Nat := 100

/-- Maximum description length (`app.py`). -/
def MAX_DESCRIPTION : Nat := 5000

/-- Maximum project name length (`app.py`). -/
def MAX_PROJECT_NAME : Nat := 80

/-- Maximum project description length (`app.py`). -/
def MAX_PROJECT_DESCRIPTION : Nat := 2000

/-- Maximum comment length (`app.py`). -/
def MAX_COMMENT : Nat := 3000

/-- Maximum search string length (`app.py`). -/
def MAX_SEARCH : Nat := 200

/-- Maximum estimated hours (`app.py`). -/
def MAX_HOURS : Nat := 999

/-- Minimum estimated hours (`app.py`). -/
def MIN_HOURS : Nat := 0

/-- Length of an ObjectId hex string (`app.py`). -/
def OBJECTID_HEX_LEN : Nat := 24

/-- Translation of `_oid` from `app.py`: convert a string to an ObjectId,
returning `none` if invalid.  An ObjectId is modelled by its lowercase hex
string (`bson.ObjectId` accepts 24 hex chars of either case and renders
lowercase); for such input the `ObjectId(s)` constructor never raises, so
the `try/except` is the identity here. -/
def oidOf (s : String) : Option String :=
  if s = "" then none
  else
    let t := pyStrip s
    if t.length ≠ OBJECTID_HEX_LEN then none
    else if ¬ (t.toList.all fun c => "0123456789abcdefABCDEF".toList.contains c) then none
    else some (pyLower t)

/-- Translation of `_validate_length` from `app.py`: return
`(true, trimmed)` when within the limit, else `(false, message)`.
(The `s is None` branch never fires: every caller passes a string.) -/
def validateLength (s : String) (maxLen : Nat) (fieldName : String) : Bool × String :=
  let t := pyStrip s
  if t.length > maxLen then
    (false,
      fieldName ++ " must be at most " ++ toString maxLen ++ " characters (got "
        ++ toString t.length ++ ").")
  else (true, t)

/-- Translation of `_date_for_mongo` from `app.py`: a `date` is stored in
BSON as the midnight `datetime` (`datetime.combine(d, time(0, 0, 0))`). -/
def dateForMongo (d : Option PyDate) : Option PyDateTime :=
  d.map fun dd => ⟨dd, 0, 0, 0⟩

/-- Numeric value of a decimal digit character. -/
def digitVal (c : Char) : Nat := c.toNat - 48

/-- Value of a list of decimal digit characters. -/
def natOfDigits (cs : List Char) : Nat :=
  cs.foldl (fun a c => a * 10 + digitVal c) 0

/-- Models Python `float(s)` on plain decimal literals (optional
surrounding whitespace, optional sign, digits with at most one decimal
point, at least one digit).  Parse failure (`ValueError`) is `none`.
Exponent/infinity/nan literals do not occur in the claims considered and
are treated as failures. -/
def pyFloat (s : String) : Option ℚ :=
  let t := pyStripL s.toList
  let sgnBody : ℚ × List Char :=
    match t with
    | '+' :: r => (1, r)
    | '-' :: r => (-1, r)
    | r => (1, r)
  let sgn := sgnBody.1
  let body := sgnBody.2
  let intPart := body.takeWhile Char.isDigit
  let rest := body.dropWhile Char.isDigit
  match rest with
  | [] => if intPart.isEmpty then none else some (sgn * (natOfDigits intPart : ℚ))
  | '.' :: frac =>
      if frac.all Char.isDigit && !(intPart.isEmpty && frac.isEmpty) then
        some (sgn * ((natOfDigits intPart : ℚ)
          + (natOfDigits frac : ℚ) / ((10 : ℚ) ^ frac.length)))
      else none
  | _ => none

/-- Models `float(request.form.get("task_hours") or 0)` from `app.py`: a
missing or empty field falls back to `0`; otherwise the string is parsed,
`none` meaning the `ValueError` branch. -/
def parseHours (o : Option String) : Option ℚ :=
  match o with
  | none => some 0
  | some s => if s = "" then some 0 else pyFloat s

/-- Gregorian leap-year test, as `datetime` uses. -/
def isLeap (y : Nat) : Bool :=
  y % 4 = 0 && (y % 100 ≠ 0 || y % 400 = 0)

/-- Days in a month, as `datetime` validates. -/
def daysInMonth (y m : Nat) : Nat :=
  if m = 2 then (if isLeap y then 29 else 28)
  else if m = 4 || m = 6 || m = 9 || m = 11 then 30
  else 31

/-- The day field of `%d`, per CPython's pattern
`3[01]|[12]\d|0[1-9]|[1-9]| [1-9]`: one or two decimal digits, or a
space followed by a non-zero digit.  Values the pattern puts above 31 do
not arise; values invalid for the month are rejected by the
`datetime.date` constructor afterwards, so both checks are folded into
the caller's `daysInMonth` test. -/
def parseDayField (ds : List Char) : Option Nat :=
  match ds with
  | [' ', c] => if c.isDigit && !(c == '0') then some (digitVal c) else none
  | _ =>
    if !ds.isEmpty && ds.all Char.isDigit && ds.length ≤ 2 then
      some (natOfDigits ds)
    else none

/-- Models `datetime.strptime(s, "%Y-%m-%d").date()` as CPython compiles
the format: `%Y` is exactly four digits (`\d\d\d\d`), `%m` one or two
digits making 1–12 (`1[0-2]|0[1-9]|[1-9]`), `%d` one or two digits or a
space-padded single digit, the whole string consumed; the
`datetime.date` constructor then rejects year 0 and days beyond the
month's length.  Any failure raises `ValueError`, modelled as `none`.
(Digits are modelled as ASCII; the exotic unicode digits `\d` also
matches do not occur in these claims.) -/
def parseYmd (s : String) : Option PyDate :=
  match splitDash s.toList with
  | [ys, ms, ds] =>
    if ys.length = 4 && ys.all Char.isDigit
        && !ms.isEmpty && ms.all Char.isDigit && ms.length ≤ 2 then
      match parseDayField ds with
      | none => none
      | some d =>
        let y := natOfDigits ys
        let m := natOfDigits ms
        if 1 ≤ y && 1 ≤ m && m ≤ 12 && 1 ≤ d && d ≤ daysInMonth y m then
          some ⟨y, m, d⟩
        else none
    else none
  | _ => none

/-- Task document as inserted by `task_add` (`app.py`): every stored task
carries this full field set. -/
structure Task where
  _id : String
  title : String
  description : String
  status : String
  priority : String
  project_id : Option String
  assigned_to : Option String
  due_date : Option PyDateTime
  estimated_hours : ℚ
  actual_hours : ℚ
  created_by : String
  created_at : PyDateTime
  updated_at : PyDateTime
deriving DecidableEq, BEq

/-- Project document (`projects` collection). -/
structure Project where
  _id : String
  name : String
  description : String
deriving DecidableEq, BEq

/-- User document (`users` collection). -/
structure User where
  _id : String
  username : String
  password : String
deriving DecidableEq, BEq

/-- History document as inserted by `_add_history` (`app.py`). -/
structure HistoryEntry where
  _id : String
  task_id : String
  user_id : String
  action : String
  old_value : String
  new_value : String
  timestamp : PyDateTime
deriving DecidableEq, BEq

/-- Notification document as inserted by `_add_notification` (`app.py`). -/
structure Notification where
  _id : String
  user_id : String
  message : String
  type : String
  read : Bool
  created_at : PyDateTime
deriving DecidableEq, BEq

/-- Comment document as inserted by `comment_add` (`app.py`). -/
structure Comment where
  _id : String
  task_id : String
  user_id : String
  comment_text : String
  created_at : PyDateTime
deriving DecidableEq, BEq

/-- The MongoDB database: one list per collection, in insertion order,
plus a counter from which `insert_one`'s generated ObjectIds are drawn. -/
structure DBState where
  users : List User
  projects : List Project
  tasks : List Task
  comments : List Comment
  history : List HistoryEntry
  notifications : List Notification
  nextOid : Nat
deriving DecidableEq, BEq

/-- ObjectId generated for the `n`-th inserted document: `n` in lowercase
hex padded to 24 characters (a fresh, well-formed ObjectId string). -/
def genOid (n : Nat) : String :=
  let ds := Nat.toDigits 16 n
  String.mk (List.replicate (OBJECTID_HEX_LEN - ds.length) '0' ++ ds)

/-- Result of a form-handling route: `ok` for the success flash+redirect,
`error msg` for a flash of `msg` followed by a redirect with no further
processing. -/
inductive OpResult where
  | ok : OpResult
  | error : String → OpResult
deriving DecidableEq, BEq

/-- Translation of `_add_history` (`app.py`): `insert_one` into the
`history` collection, drawing a fresh `_id`. -/
def addHistory (taskId action oldV newV userId : String) (now : PyDateTime)
    (st : DBState) : DBState :=
  { st with
    history := st.history ++ [⟨genOid st.nextOid, taskId, userId, action, oldV, newV, now⟩],
    nextOid := st.nextOid + 1 }

/-- Translation of `_add_notification` (`app.py`): `insert_one` into the
`notifications` collection with `read = False`. -/
def addNotification (userId message type_ : String) (now : PyDateTime)
    (st : DBState) : DBState :=
  { st with
    notifications := st.notifications ++ [⟨genOid st.nextOid, userId, message, type_, false, now⟩],
    nextOid := st.nextOid + 1 }

/-- Form fields read by `task_add` / `task_update`; `none` models a key
absent from `request.form`. -/
structure TaskForm where
  task_title : Option String
  task_description : Option String
  task_status : Option String
  task_priority : Option String
  task_project_id : Option String
  task_assigned_to : Option String
  task_due_date : Option String
  task_hours : Option String
deriving DecidableEq, BEq

/-- The `task_doc` dictionary built by `task_add` (`app.py`): a date-parse
failure silently leaves the due date unset (the caught `ValueError`), and
an ill-formed project/assignee id resolves to `None`. -/
def taskAddDoc (form : TaskForm) (userId : String) (now : PyDateTime)
    (newId : String) (title description : String) (hours_val : ℚ) : Task :=
  let due_date : Option PyDate :=
    match form.task_due_date with
    | none => none
    | some s => if s = "" then none else parseYmd s
  let raw_project := form.task_project_id.getD ""
  let raw_assigned := form.task_assigned_to.getD ""
  let project_id := oidOf raw_project
  let assigned_to := oidOf raw_assigned
  { _id := newId, title := title, description := description,
    status := form.task_status.getD "Pending",
    priority := form.task_priority.getD "Medium",
    project_id := project_id, assigned_to := assigned_to,
    due_date := dateForMongo due_date,
    estimated_hours := hours_val, actual_hours := 0,
    created_by := userId, created_at := now, updated_at := now }

/-- Success tail of `task_add` (`app.py` after all validations): build the
task document, insert it, record the CREATED history entry, and notify the
assignee when one was resolved. -/
def taskAddSucc (form : TaskForm) (userId : String) (now : PyDateTime)
    (st : DBState) (title description : String) (hours_val : ℚ) : DBState :=
  let assigned_to := oidOf (form.task_assigned_to.getD "")
  let newId := genOid st.nextOid
  let task : Task := taskAddDoc form userId now newId title description hours_val
  let st1 := { st with tasks := st.tasks ++ [task], nextOid := st.nextOid + 1 }
  let st2 := addHistory newId "CREATED" "" title userId now st1
  match assigned_to with
  | some a => addNotification a ("New task assigned: " ++ title) "task_assigned" now st2
  | none => st2

/-- Translation of the `task_add` route (`app.py`).  Validation order is
the source's: title length, title required, description length, hours
parse, hours range; a date-parse failure silently leaves the due date
unset (the caught `ValueError`). -/
def taskAdd (form : TaskForm) (userId : String) (now : PyDateTime)
    (st : DBState) : OpResult × DBState :=
  let v := validateLength (pyStrip (form.task_title.getD "")) MAX_TITLE "Title"
  if v.1 = false then (.error v.2, st)
  else
    let title := v.2
    if title = "" then (.error "Title is required.", st)
    else
      let vd := validateLength (form.task_description.getD "") MAX_DESCRIPTION "Description"
      if vd.1 = false then (.error vd.2, st)
      else
        match parseHours form.task_hours with
        | none => (.error "Estimated hours must be a number between 0 and 999.", st)
        | some hours_val =>
          if ¬ ((MIN_HOURS : ℚ) ≤ hours_val ∧ hours_val ≤ (MAX_HOURS : ℚ)) then
            (.error ("Estimated hours must be between " ++ toString MIN_HOURS
              ++ " and " ++ toString MAX_HOURS ++ "."), st)
          else
            (.ok, taskAddSucc form userId now st title vd.2 hours_val)

/-- Point lookup `tasks.find_one({"_id": oid})`. -/
def findTask (st : DBState) (oid : String) : Option Task :=
  st.tasks.find? fun t => t._id == oid

/-- The `$set` document of `task_update` (`app.py`): a date-parse failure
falls back to the previously stored due date (`task.get("due_date")`,
converted `datetime → date` before being re-stored as a midnight
datetime); ill-formed project/assignee ids resolve to `None`. -/
def taskUpdateDoc (task : Task) (form : TaskForm) (now : PyDateTime)
    (title description : String) (hours_val : ℚ) : Task :=
  let due_date : Option PyDate :=
    match form.task_due_date with
    | none => none
    | some s =>
      if s = "" then none
      else
        match parseYmd s with
        | some d => some d
        | none => task.due_date.map PyDateTime.date
  let project_id := oidOf (form.task_project_id.getD "")
  let assigned_to := oidOf (form.task_assigned_to.getD "")
  { task with
    title := title, description := description,
    status := form.task_status.getD "Pending",
    priority := form.task_priority.getD "Medium",
    project_id := project_id, assigned_to := assigned_to,
    due_date := dateForMongo due_date,
    estimated_hours := hours_val, updated_at := now }

/-- Success tail of `task_update` (`app.py` after all validations):
a date-parse failure falls back to the previously stored due date
(`task.get("due_date")`, converted `datetime → date`); the status-change
test compares the stored status against the raw form value
(`request.form.get("task_status")`, `None` when absent) while the
persisted status defaults to `"Pending"`. -/
def taskUpdateSucc (oid : String) (task : Task) (form : TaskForm)
    (userId : String) (now : PyDateTime) (st : DBState)
    (title description : String) (hours_val : ℚ) : DBState :=
  let assigned_to := oidOf (form.task_assigned_to.getD "")
  let old_status := task.status
  let old_title := task.title
  let updatedTask : Task := taskUpdateDoc task form now title description hours_val
  let st1 := { st with tasks := st.tasks.map fun t => if t._id == oid then updatedTask else t }
  let st2 :=
    if (match form.task_status with
        | none => true
        | some s => ¬ (old_status = s) : Bool) then
      addHistory oid "STATUS_CHANGED" (if old_status = "" then "" else old_status)
        (form.task_status.getD "") userId now st1
    else st1
  let st3 :=
    if ¬ (old_title = title) then
      addHistory oid "TITLE_CHANGED" (if old_title = "" then "" else old_title)
        title userId now st2
    else st2
  match assigned_to with
  | some a => addNotification a ("Task updated: " ++ title) "task_updated" now st3
  | none => st3

/-- Translation of the `task_update` route (`app.py`): id format check,
existence check, then the same validation chain as `task_add`. -/
def taskUpdate (task_id : String) (form : TaskForm) (userId : String)
    (now : PyDateTime) (st : DBState) : OpResult × DBState :=
  match oidOf task_id with
  | none => (.error "Invalid task.", st)
  | some oid =>
    match findTask st oid with
    | none => (.error "Task not found.", st)
    | some task =>
      let v := validateLength (pyStrip (form.task_title.getD "")) MAX_TITLE "Title"
      if v.1 = false then (.error v.2, st)
      else
        let title := v.2
        if title = "" then (.error "Title is required.", st)
        else
          let vd := validateLength (form.task_description.getD "") MAX_DESCRIPTION "Description"
          if vd.1 = false then (.error vd.2, st)
          else
            match parseHours form.task_hours with
            | none => (.error "Estimated hours must be a number between 0 and 999.", st)
            | some hours_val =>
              if ¬ ((MIN_HOURS : ℚ) ≤ hours_val ∧ hours_val ≤ (MAX_HOURS : ℚ)) then
                (.error ("Estimated hours must be between " ++ toString MIN_HOURS
                  ++ " and " ++ toString MAX_HOURS ++ "."), st)
              else
                (.ok, taskUpdateSucc oid task form userId now st title vd.2 hours_val)

/-- Translation of the `task_delete` route (`app.py`): the DELETED history
entry is written before the `delete_one`. -/
def taskDelete (task_id : String) (userId : String) (now : PyDateTime)
    (st : DBState) : OpResult × DBState :=
  match oidOf task_id with
  | none => (.error "Invalid task.", st)
  | some oid =>
    match findTask st oid with
    | none => (.error "Task not found.", st)
    | some task =>
      let st1 := addHistory oid "DELETED" task.title "" userId now st
      (.ok, { st1 with tasks := st1.tasks.eraseP fun t => t._id == oid })

/-- Translation of the `project_update` route (`app.py`). -/
def projectUpdate (project_id : String) (form_name form_description : Option String)
    (st : DBState) : OpResult × DBState :=
  match oidOf project_id with
  | none => (.error "Invalid project.", st)
  | some oid =>
    match st.projects.find? (fun p => p._id == oid) with
    | none => (.error "Project not found.", st)
    | some _ =>
      let v := validateLength (pyStrip (form_name.getD "")) MAX_PROJECT_NAME "Project name"
      if v.1 = false then (.error v.2, st)
      else
        let name := v.2
        if name = "" then (.error "Name is required.", st)
        else
          let vd := validateLength (form_description.getD "") MAX_PROJECT_DESCRIPTION
            "Project description"
          if vd.1 = false then (.error vd.2, st)
          else
            (.ok, { st with projects := st.projects.map fun p =>
              if p._id == oid then { p with name := name, description := vd.2 } else p })

/-- Translation of the `project_delete` route (`app.py`): no existence
check, `delete_one` straight away. -/
def projectDelete (project_id : String) (st : DBState) : OpResult × DBState :=
  match oidOf project_id with
  | none => (.error "Invalid project.", st)
  | some oid =>
    (.ok, { st with projects := st.projects.eraseP fun p => p._id == oid })

/-- Translation of the `comment_add` route (`app.py`). -/
def commentAdd (comment_task_id comment_text : Option String) (userId : String)
    (now : PyDateTime) (st : DBState) : OpResult × DBState :=
  let task_id := pyStrip (comment_task_id.getD "")
  match oidOf task_id with
  | none => (.error "Invalid task ID (must be 24 hex characters).", st)
  | some oid =>
    let v := validateLength (pyStrip (comment_text.getD "")) MAX_COMMENT "Comment text"
    if v.1 = false then (.error v.2, st)
    else
      let text := v.2
      if text = "" then (.error "Comment cannot be empty.", st)
      else
        match findTask st oid with
        | none => (.error "Task not found.", st)
        | some _ =>
          (.ok, { st with
            comments := st.comments ++ [⟨genOid st.nextOid, oid, userId, text, now⟩],
            nextOid := st.nextOid + 1 })

/-- Insert into a list sorted by `le` (used to model MongoDB `sort`). -/
def insertLe {α : Type} (le : α → α → Bool) (a : α) : List α → List α
  | [] => [a]
  | b :: bs => if le a b then a :: b :: bs else b :: insertLe le a bs

/-- Insertion sort by `le` (used to model MongoDB `sort`). -/
def sortLe {α : Type} (le : α → α → Bool) : List α → List α
  | [] => []
  | a :: rest => insertLe le a (sortLe le rest)

/-- Username lookup used by the JSON endpoints:
`users.get(uid, "?")` over `{u["_id"]: u["username"]}`. -/
def usernameOf (st : DBState) (uid : String) : String :=
  match st.users.find? (fun u => u._id == uid) with
  | some u => u.username
  | none => "?"

/-- Association-list lookup with default, modelling Python `dict.get`. -/
def lookupD (l : List (String × String)) (k d : String) : String :=
  match l.find? (fun kv => kv.1 == k) with
  | some kv => kv.2
  | none => d

/-- The `{str(p["_id"]): p["name"]}` map built by `api_search` and
`export_csv`. -/
def projectsById (st : DBState) : List (String × String) :=
  st.projects.map fun p => (p._id, p.name)

/-- The `{str(u["_id"]): u["username"]}` map built by `export_csv`. -/
def usersById (st : DBState) : List (String × String) :=
  st.users.map fun u => (u._id, u.username)

/-- The slice of a dashboard task dict that `_compute_stats` reads
(`status`, `priority`, `due_date`; `_get_tasks_for_dashboard` passes the
stored BSON datetime through unchanged as `due_date`). -/
structure DashTask where
  status : String
  priority : String
  due_date : Option PyDateTime
deriving DecidableEq, BEq

/-- Projection of a stored task to the fields `_compute_stats` reads. -/
def dashOf (t : Task) : DashTask :=
  ⟨t.status, t.priority, t.due_date⟩

/-- Dashboard statistics record returned by `_compute_stats`. -/
structure Stats where
  total : Nat
  completed : Nat
  pending : Nat
  high_priority : Nat
  overdue : Nat
deriving DecidableEq, BEq

/-- Translation of `_compute_stats` (`app.py`).  `today` is
`date.today()` at evaluation time.  Stored due dates are BSON datetimes,
so the `isinstance(dd, datetime)` branch (`d = dd.date()`) is the live one
in the overdue loop. -/
def computeStats (tasks : List DashTask) (today : PyDate) : Stats :=
  let total := tasks.length
  let completed := (tasks.filter fun t => t.status == "Completed").length
  let pending := total - completed
  let high_priority :=
    (tasks.filter fun t => t.priority == "High" || t.priority == "Critical").length
  let overdue := tasks.foldl
    (fun acc t =>
      match t.due_date with
      | none => acc
      | some dd =>
        if t.status ≠ "Completed" then
          (if PyDate.blt dd.date today then acc + 1 else acc)
        else acc)
    0
  ⟨total, completed, pending, high_priority, overdue⟩

/-- Character match for one MongoDB `$regex` pattern position with the
`i` (case-insensitive) option: `.` matches any character, anything else
matches its own letter up to case.  This models the PCRE subset actually
exercised here — patterns whose only metacharacter is `.`. -/
def reCharMatch (pc c : Char) : Bool :=
  pc == '.' || pc.toLower == c.toLower

/-- Does the pattern match a prefix of the text (case-insensitively)? -/
def reMatchAt : List Char → List Char → Bool
  | [], _ => true
  | _ :: _, [] => false
  | pc :: ps, c :: cs => reCharMatch pc c && reMatchAt ps cs

/-- Unanchored `$regex` search: does the pattern match anywhere in the
text? -/
def reSearch (p : List Char) : List Char → Bool
  | [] => reMatchAt p []
  | c :: cs => reMatchAt p (c :: cs) || reSearch p cs

/-- Response of a JSON endpoint that can fail with an HTTP error body. -/
inductive ApiResult (α : Type) where
  | ok : α → ApiResult α
  | error : String → ApiResult α
deriving DecidableEq, BEq

/-- Query-string arguments read by `api_search`. -/
structure SearchArgs where
  q : Option String
  status : Option String
  priority : Option String
  project_id : Option String
deriving DecidableEq, BEq

/-- One JSON object of the `api_search` response. -/
structure SearchJson where
  id : String
  title : String
  status : String
  priority : String
  project : String
deriving DecidableEq, BEq

/-- Translation of the `api_search` route (`app.py`).  The MongoDB filter
document is modelled as the predicate it denotes: the `$or` of two
case-insensitive `$regex` clauses when `q` is non-empty, AND exact matches
for each non-empty `status`/`priority` filter and for a well-formed
`project_id`.  `str(t.get("project_id"))` renders a missing project as the
string `"None"`, which is then looked up in the project-name dict with
default `"No project"`.  `.error` is the HTTP 400 branch. -/
def apiSearch (args : SearchArgs) (st : DBState) : ApiResult (List SearchJson) :=
  let q_raw := pyLower (pyStrip (args.q.getD ""))
  let v := validateLength q_raw MAX_SEARCH "Search text"
  if v.1 = false then .error v.2
  else
    let q := v.2
    let status := pyStrip (args.status.getD "")
    let priority := pyStrip (args.priority.getD "")
    let project_id := oidOf (args.project_id.getD "")
    let matchesQ : Task → Bool := fun t =>
      (q == "" || reSearch q.toList t.title.toList || reSearch q.toList t.description.toList)
        && (status == "" || t.status == status)
        && (priority == "" || t.priority == priority)
        && (match project_id with
            | some p => t.project_id == some p
            | none => true)
    let ts := st.tasks.filter matchesQ
    .ok (ts.map fun t =>
      { id := t._id, title := t.title, status := t.status, priority := t.priority,
        project := lookupD (projectsById st)
          (match t.project_id with | some p => p | none => "None") "No project" })

/-- One JSON object of the `api_task` response. -/
structure TaskJson where
  id : String
  title : String
  description : String
  status : String
  priority : String
  project_id : String
  assigned_to : String
  due_date : String
  estimated_hours : ℚ
deriving DecidableEq, BEq

/-- Translation of the `api_task` route (`app.py`); `none` is the 404
JSON-error response (for both the invalid-id and the not-found case).
A stored due date is a BSON `datetime`, which satisfies
`isinstance(dd, date)`, so `dd.isoformat()` is the branch taken. -/
def apiTask (task_id : String) (st : DBState) : Option TaskJson :=
  match oidOf task_id with
  | none => none
  | some oid =>
    match findTask st oid with
    | none => none
    | some task =>
      let due_str :=
        match task.due_date with
        | some dd => dd.isoformat
        | none => ""
      some
        { id := task._id, title := task.title, description := task.description,
          status := task.status, priority := task.priority,
          project_id := task.project_id.getD "",
          assigned_to := task.assigned_to.getD "",
          due_date := due_str, estimated_hours := task.estimated_hours }

/-- One JSON object of the `api_comments` response. -/
structure CommentJson where
  id : String
  user : String
  text : String
  created_at : String
deriving DecidableEq, BEq

/-- Translation of the `api_comments` route (`app.py`): invalid id gives
the empty array; otherwise the task's comments sorted by `created_at`
ascending. -/
def apiComments (task_id : String) (st : DBState) : List CommentJson :=
  match oidOf task_id with
  | none => []
  | some oid =>
    let cs := sortLe (fun a b => PyDateTime.ble a.created_at b.created_at)
      (st.comments.filter fun c => c.task_id == oid)
    cs.map fun c =>
      { id := c._id, user := usernameOf st c.user_id, text := c.comment_text,
        created_at := c.created_at.isoformat }

/-- One JSON object of the `api_history` response. -/
structure HistoryJson where
  id : String
  task_id : String
  user : String
  action : String
  old_value : String
  new_value : String
  timestamp : String
deriving DecidableEq, BEq

/-- Translation of the `api_history` route (`app.py`): `task_id` is `none`
for the bare `/api/history` route.  A falsy (`""`) or ill-formed task id
leaves the filter document empty, so the query returns history entries of
every task; the result is sorted newest first and truncated to 100. -/
def apiHistory (task_id : Option String) (st : DBState) : List HistoryJson :=
  let q : Option String :=
    match task_id with
    | none => none
    | some tid => if tid = "" then none else oidOf tid
  let entries :=
    (sortLe (fun a b => PyDateTime.ble b.timestamp a.timestamp)
      (st.history.filter fun e =>
        match q with
        | some o => e.task_id == o
        | none => true)).take 100
  entries.map fun e =>
    { id := e._id, task_id := e.task_id, user := usernameOf st e.user_id,
      action := e.action, old_value := e.old_value, new_value := e.new_value,
      timestamp := e.timestamp.isoformat }

/-- Field quoting of Python's `csv.writer` default dialect
(QUOTE_MINIMAL): quote a field containing the delimiter, the quote
character or a CR/LF, doubling embedded quotes. -/
def csvField (s : String) : String :=
  if s.toList.any (fun c => c == ',' || c == '"' || c == '\n' || c == '\r') then
    "\"" ++ String.mk (s.toList.foldr
      (fun c acc => if c == '"' then '"' :: '"' :: acc else c :: acc) []) ++ "\""
  else s

/-- One CSV record: comma-joined quoted fields, CRLF-terminated
(the `csv.writer` default line terminator). -/
def csvRow (fields : List String) : String :=
  String.intercalate "," (fields.map csvField) ++ "\r\n"

/-- Translation of the `export_csv` route (`app.py`), producing the text
that is then encoded as `utf-8-sig` — i.e. prefixed with the byte-order
mark, modelled as the `U+FEFF` character.  A stored due date is a BSON
`datetime`; `isinstance(dd, date)` holds for it (datetime subclasses
date), so the branch taken is `dd.isoformat()` — the 10-character
truncation branch is dead for documents this application writes. -/
def exportCsv (st : DBState) : String :=
  let header := csvRow ["ID", "Title", "Status", "Priority", "Project", "Assigned", "Due"]
  let rows := st.tasks.map fun t =>
    let pid := t.project_id
    let aid := t.assigned_to
    let due_str :=
      match t.due_date with
      | some dd => dd.isoformat
      | none => ""
    csvRow
      [t._id, t.title, t.status, t.priority,
        (match pid with
         | some p => lookupD (projectsById st) p "No project"
         | none => "No project"),
        (match aid with
         | some a => lookupD (usersById st) a "Unassigned"
         | none => "Unassigned"),
        due_str]
  "\uFEFF" ++ header ++ String.join rows

/-!
Specification-side definitions: declarative restatements of the spec's
wording, to be compared with the translated code above, plus concrete
fixtures used by witnesses and counterexamples.
-/

/-- Declarative overdue predicate from the spec: due date set, status not
"Completed", due date strictly before today. -/
def overduePred (today : PyDate) (t : DashTask) : Bool :=
  match t.due_date with
  | some dd => (t.status ≠ "Completed" : Bool) && PyDate.blt dd.date today
  | none => false

/-- Boolean prefix test on character lists (plain equality). -/
def isPrefixList : List Char → List Char → Bool
  | [], _ => true
  | _ :: _, [] => false
  | a :: as', b :: bs => a == b && isPrefixList as' bs

/-- Boolean substring test on character lists: the needle occurs
contiguously somewhere in the haystack. -/
def isSubstrList (p : List Char) : List Char → Bool
  | [] => isPrefixList p []
  | c :: cs => isPrefixList p (c :: cs) || isSubstrList p cs

/-- The spec's "case-insensitive substring" relation on strings. -/
def substrCI (q s : String) : Bool :=
  isSubstrList (q.toList.map Char.toLower) (s.toList.map Char.toLower)

/-- Characters with a special meaning in a PCRE pattern (MongoDB
`$regex`); a query avoiding all of these reads as a plain substring. -/
def pcreMetachars : List Char :=
  ['\\', '^', '$', '.', '|', '?', '*', '+', '(', ')', '[', ']', '\x7b', '\x7d']

/-- Declarative search filter from the spec: the query (when non-empty) is
a case-insensitive substring of the title or of the description, and every
supplied exact filter matches. -/
def searchSpecPred (q status priority : String) (projFilter : Option String)
    (t : Task) : Bool :=
  (q == "" || substrCI q t.title || substrCI q t.description)
    && (status == "" || t.status == status)
    && (priority == "" || t.priority == priority)
    && (match projFilter with
        | some p => t.project_id == some p
        | none => true)

/-- Declarative result row from the spec: id/title/status/priority plus
the project name, `"No project"` when the task has no project set. -/
def searchSpecProj (st : DBState) (t : Task) : SearchJson :=
  { id := t._id, title := t.title, status := t.status, priority := t.priority,
    project :=
      match t.project_id with
      | some p => lookupD (projectsById st) p "No project"
      | none => "No project" }

/-- The STATUS_CHANGED Pending→Completed history shape named by the
claim about task updates. -/
def isPendingCompletedEntry (e : HistoryEntry) : Bool :=
  e.action == "STATUS_CHANGED" && e.old_value == "Pending" && e.new_value == "Completed"

/-- Fixture: a well-formed ObjectId string. -/
def aHex : String := "aaaaaaaaaaaaaaaaaaaaaaaa"

/-- Fixture: a second well-formed ObjectId string. -/
def bHex : String := "bbbbbbbbbbbbbbbbbbbbbbbb"

/-- Fixture: an evaluation-time timestamp. -/
def now0 : PyDateTime := ⟨⟨2026, 10, 12⟩, 9, 30, 0⟩

/-- Fixture: a form with every field absent. -/
def emptyForm : TaskForm := ⟨none, none, none, none, none, none, none, none⟩

/-- Fixture: an empty database. -/
def st0 : DBState := ⟨[], [], [], [], [], [], 0⟩

/-- Fixture: one stored task (status Pending, due 2024-05-01, no project,
no assignee), as `task_add` would have written it. -/
def taskT : Task :=
  ⟨aHex, "T", "", "Pending", "Medium", none, none,
    some ⟨⟨2024, 5, 1⟩, 0, 0, 0⟩, 0, 0, "u", now0, now0⟩

/-- Fixture: a database holding just `taskT`. -/
def stT : DBState := ⟨[], [], [taskT], [], [], [], 0⟩

/-- Fixture: a database holding one history entry (for the api_history
counterexample). -/
def stH : DBState :=
  ⟨[], [], [taskT], [],
    [⟨bHex, aHex, "u", "CREATED", "", "T", now0⟩], [], 0⟩

/-- Fixture: a database with two tasks, "Alpha rollout" and
"Beta rollout" (the spec's search example). -/
def stAB : DBState :=
  ⟨[], [],
    [⟨aHex, "Alpha rollout", "", "Pending", "Medium", none, none, none, 0, 0, "u", now0, now0⟩,
     ⟨bHex, "Beta rollout", "", "Pending", "Medium", none, none, none, 0, 0, "u", now0, now0⟩],
    [], [], [], 0⟩

/-- Fixture: a database with one task titled "xyz" (for the regex
counterexample). -/
def stXyz : DBState :=
  ⟨[], [],
    [⟨aHex, "xyz", "", "Pending", "Medium", none, none, none, 0, 0, "u", now0, now0⟩],
    [], [], [], 0⟩

/-- Fixture: a title of 101 characters. -/
def longTitle : String := String.mk (List.replicate 101 'a')

/-- Fixture: update form changing the status Pending → Completed. -/
def c1wform : TaskForm :=
  { emptyForm with task_title := some "T", task_status := some "Completed" }

/-- Fixture: creation form with a title and a well-formed assignee. -/
def c2wform : TaskForm :=
  { emptyForm with task_title := some "Alpha", task_assigned_to := some bHex }

/-- Fixture: form submitting a status and priority from the documented
sets. -/
def c4wform : TaskForm :=
  { emptyForm with
      task_title := some "T"
      task_status := some "In Progress"
      task_priority := some "High" }

/-- Fixture: form with a 101-character title. -/
def c8wform : TaskForm := { emptyForm with task_title := some longTitle }

/-- Fixture: form with an unparsable due date. -/
def c9wform : TaskForm :=
  { emptyForm with task_title := some "T", task_due_date := some "not-a-date" }

/-- Fixture: form with non-empty but ill-formed project and assignee
identifiers. -/
def c10wform : TaskForm :=
  { emptyForm with
      task_title := some "T"
      task_project_id := some "badproject"
      task_assigned_to := some "baduser" }

/-!
Helper lemmas shared by the claim theorems.
-/

/-- When every validation passes, `taskAdd` runs its success tail. -/
theorem taskAdd_valid (form : TaskForm) (userId : String) (now : PyDateTime)
    (st : DBState) (title description : String) (hrs : ℚ)
    (hv : validateLength (pyStrip (form.task_title.getD "")) MAX_TITLE "Title" = (true, title))
    (ht : ¬ (title = ""))
    (hvd : validateLength (form.task_description.getD "") MAX_DESCRIPTION "Description"
      = (true, description))
    (hh : parseHours form.task_hours = some hrs)
    (hlo : (MIN_HOURS : ℚ) ≤ hrs) (hhi : hrs ≤ (MAX_HOURS : ℚ)) :
    taskAdd form userId now st
      = (.ok, taskAddSucc form userId now st title description hrs) := by
  simp only [taskAdd, hv, hvd, hh]
  simp [ht, hlo, hhi]

/-- When the id resolves, the task exists, and every validation passes,
`taskUpdate` runs its success tail. -/
theorem taskUpdate_valid (tid : String) (form : TaskForm) (userId : String)
    (now : PyDateTime) (st : DBState) (oid : String) (task : Task)
    (title description : String) (hrs : ℚ)
    (ho : oidOf tid = some oid)
    (hf : findTask st oid = some task)
    (hv : validateLength (pyStrip (form.task_title.getD "")) MAX_TITLE "Title" = (true, title))
    (ht : ¬ (title = ""))
    (hvd : validateLength (form.task_description.getD "") MAX_DESCRIPTION "Description"
      = (true, description))
    (hh : parseHours form.task_hours = some hrs)
    (hlo : (MIN_HOURS : ℚ) ≤ hrs) (hhi : hrs ≤ (MAX_HOURS : ℚ)) :
    taskUpdate tid form userId now st
      = (.ok, taskUpdateSucc oid task form userId now st title description hrs) := by
  simp only [taskUpdate, ho, hf, hv, hvd, hh]
  simp [ht, hlo, hhi]

/-- After `update_one`, looking the task up again returns the updated
document (the update keeps the `_id`). -/
theorem findTask_map_update (l : List Task) (oid : String) (nt : Task)
    (hid : nt._id = oid) (t : Task)
    (h : l.find? (fun x => x._id == oid) = some t) :
    (l.map fun x => if x._id == oid then nt else x).find? (fun x => x._id == oid)
      = some nt := by
  induction l with
  | nil => simp at h
  | cons a rest ih =>
    rcases hb : (a._id == oid) with _ | _
    · rw [List.find?_cons, hb] at h
      simp only [List.map_cons]
      rw [show (if (a._id == oid) = true then nt else a) = a by simp [hb]]
      rw [List.find?_cons, hb]
      exact ih h
    · simp only [List.map_cons]
      rw [show (if (a._id == oid) = true then nt else a) = nt by simp [hb]]
      rw [List.find?_cons]
      simp [hid]

/-- A `dict.get` on a key held by no entry returns the default. -/
theorem lookupD_default (l : List (String × String)) (k d : String)
    (h : ∀ kv ∈ l, ¬ (kv.1 = k)) : lookupD l k d = d := by
  induction l with
  | nil => simp [lookupD]
  | cons a rest ih =>
    have ha : (a.1 == k) = false := by
      have := h a (by simp)
      simpa using this
    simp only [lookupD, List.find?_cons, ha]
    have := ih fun kv hm => h kv (by simp [hm])
    simpa [lookupD] using this

/-- The overdue loop of `_compute_stats` counts exactly the tasks
satisfying the spec's overdue predicate. -/
theorem overdue_foldl (today : PyDate) :
    ∀ (l : List DashTask) (acc : Nat),
      l.foldl
        (fun acc t =>
          match t.due_date with
          | none => acc
          | some dd =>
            if t.status ≠ "Completed" then
              (if PyDate.blt dd.date today then acc + 1 else acc)
            else acc)
        acc
      = acc + l.countP (overduePred today) := by
  intro l
  induction l with
  | nil => intro acc; simp
  | cons t rest ih =>
    intro acc
    simp only [List.foldl_cons, List.countP_cons, ih]
    rcases hd : t.due_date with _ | dd
    · simp [overduePred, hd]
    · by_cases hs : t.status = "Completed"
      · simp [overduePred, hd, hs]
      · by_cases hb : PyDate.blt dd.date today = true
        · simp [overduePred, hd, hs, hb]; omega
        · simp [overduePred, hd, hs, hb]

theorem reMatchAt_no_dot (p : List Char) (hp : '.' ∉ p) :
    ∀ s : List Char,
      reMatchAt p s = isPrefixList (p.map Char.toLower) (s.map Char.toLower) := by
  induction p with
  | nil => intro s; cases s <;> simp [reMatchAt, isPrefixList]
  | cons pc ps ih =>
    intro s
    have hpc : ¬ (pc = '.') := fun h => hp (by simp [h])
    have hps : '.' ∉ ps := fun h => hp (List.mem_cons_of_mem _ h)
    cases s with
    | nil => simp [reMatchAt, isPrefixList]
    | cons c cs =>
      simp only [reMatchAt, isPrefixList, List.map_cons, reCharMatch,
        ih hps]
      have : (pc == '.') = false := by simpa using hpc
      simp [this]

theorem reSearch_no_dot (p : List Char) (hp : '.' ∉ p) :
    ∀ s : List Char,
      reSearch p s = isSubstrList (p.map Char.toLower) (s.map Char.toLower) := by
  intro s
  induction s with
  | nil => simp [reSearch, isSubstrList, reMatchAt_no_dot p hp]
  | cons c cs ih =>
    simp [reSearch, isSubstrList, reMatchAt_no_dot p hp, ih]

theorem addHistory_tasks (a b c d e : String) (now : PyDateTime) (st : DBState) :
    (addHistory a b c d e now st).tasks = st.tasks := rfl

theorem addHistory_notifications (a b c d e : String) (now : PyDateTime) (st : DBState) :
    (addHistory a b c d e now st).notifications = st.notifications := rfl

theorem addNotification_tasks (a b c : String) (now : PyDateTime) (st : DBState) :
    (addNotification a b c now st).tasks = st.tasks := rfl

theorem addNotification_history (a b c : String) (now : PyDateTime) (st : DBState) :
    (addNotification a b c now st).history = st.history := rfl

theorem taskUpdateSucc_tasks (oid : String) (task : Task) (form : TaskForm)
    (userId : String) (now : PyDateTime) (st : DBState)
    (title description : String) (hrs : ℚ) :
    (taskUpdateSucc oid task form userId now st title description hrs).tasks
      = st.tasks.map fun t =>
          if t._id == oid then taskUpdateDoc task form now title description hrs else t := by
  simp only [taskUpdateSucc]
  rcases oidOf (form.task_assigned_to.getD "") with _ | a <;>
    simp [apply_ite DBState.tasks, addHistory_tasks, addNotification_tasks]

theorem taskAddSucc_parts (form : TaskForm) (userId : String) (now : PyDateTime)
    (st : DBState) (title description : String) (hrs : ℚ) :
    (taskAddSucc form userId now st title description hrs).tasks
        = st.tasks ++ [taskAddDoc form userId now (genOid st.nextOid) title description hrs]
      ∧ (taskAddSucc form userId now st title description hrs).history
        = st.history ++ [⟨genOid (st.nextOid + 1), genOid st.nextOid, userId, "CREATED", "", title, now⟩]
      ∧ (oidOf (form.task_assigned_to.getD "") = none →
          (taskAddSucc form userId now st title description hrs).notifications
            = st.notifications)
      ∧ (∀ a, oidOf (form.task_assigned_to.getD "") = some a →
          (taskAddSucc form userId now st title description hrs).notifications
            = st.notifications
              ++ [⟨genOid (st.nextOid + 2), a, "New task assigned: " ++ title,
                    "task_assigned", false, now⟩]) := by
  rcases ha : oidOf (form.task_assigned_to.getD "") with _ | a <;>
    simp [taskAddSucc, addHistory, addNotification, ha]

/-- C8: a create or update request whose trimmed title fails the
100-character validation is rejected with the field-specific message and
leaves the store exactly as it was. -/
theorem C8_overlong_title_rejected (form : TaskForm) (userId : String)
    (now : PyDateTime) (st : DBState) (msg : String)
    (h : validateLength (pyStrip (form.task_title.getD "")) MAX_TITLE "Title" = (false, msg)) :
    taskAdd form userId now st = (OpResult.error msg, st)
    ∧ (∀ tid oid task, oidOf tid = some oid → findTask st oid = some task →
        taskUpdate tid form userId now st = (OpResult.error msg, st)) := by
  constructor
  · simp [taskAdd, h]
  · intro tid oid task ho hf
    simp [taskUpdate, ho, hf, h]

/-- C9: a non-empty unparsable due-date field leaves the due date unset
on create, keeps the previously stored due date on update, and in neither
case causes the request to be rejected. -/
theorem C9_invalid_due_date_fallback (form : TaskForm) (userId : String)
    (now : PyDateTime) (st : DBState) (title description : String) (hrs : ℚ) (ds : String)
    (hv : validateLength (pyStrip (form.task_title.getD "")) MAX_TITLE "Title" = (true, title))
    (ht : ¬ (title = ""))
    (hvd : validateLength (form.task_description.getD "") MAX_DESCRIPTION "Description"
      = (true, description))
    (hh : parseHours form.task_hours = some hrs)
    (hlo : (MIN_HOURS : ℚ) ≤ hrs) (hhi : hrs ≤ (MAX_HOURS : ℚ))
    (hdue : form.task_due_date = some ds) (hne : ¬ (ds = ""))
    (hparse : parseYmd ds = none) :
    (taskAdd form userId now st).1 = OpResult.ok
    ∧ ((taskAdd form userId now st).2.tasks.drop st.tasks.length).map Task.due_date = [none]
    ∧ (∀ tid oid task, oidOf tid = some oid → findTask st oid = some task →
        (∀ dt, task.due_date = some dt → dt = ⟨dt.date, 0, 0, 0⟩) →
        (taskUpdate tid form userId now st).1 = OpResult.ok
        ∧ (findTask (taskUpdate tid form userId now st).2 oid).map Task.due_date
            = some task.due_date) := by
  refine ⟨?_, ?_, ?_⟩
  · rw [taskAdd_valid form userId now st title description hrs hv ht hvd hh hlo hhi]
  · rw [taskAdd_valid form userId now st title description hrs hv ht hvd hh hlo hhi]
    rw [(taskAddSucc_parts form userId now st title description hrs).1]
    simp [taskAddDoc, hdue, hne, hparse, dateForMongo]
  · intro tid oid task ho hf hmid
    rw [taskUpdate_valid tid form userId now st oid task title description hrs
      ho hf hv ht hvd hh hlo hhi]
    refine ⟨rfl, ?_⟩
    have hid : (taskUpdateDoc task form now title description hrs)._id = oid := by
      have := List.find?_some hf
      simpa [taskUpdateDoc] using this
    unfold findTask
    rw [taskUpdateSucc_tasks]
    rw [findTask_map_update st.tasks oid _ hid task hf]
    rcases hdd : task.due_date with _ | dt
    · simp [taskUpdateDoc, hdue, hne, hparse, dateForMongo, hdd]
    · have : dt = ⟨dt.date, 0, 0, 0⟩ := hmid dt hdd
      simp [taskUpdateDoc, hdue, hne, hparse, dateForMongo, hdd]
      exact this.symm

/-- C10: a creation request with non-empty but ill-formed project and
assignee identifiers succeeds, stores the task with no project and no
assignee, and emits no notification. -/
theorem C10_invalid_refs_treated_unset (form : TaskForm) (userId : String)
    (now : PyDateTime) (st : DBState) (title description : String) (hrs : ℚ)
    (pstr astr : String)
    (hv : validateLength (pyStrip (form.task_title.getD "")) MAX_TITLE "Title" = (true, title))
    (ht : ¬ (title = ""))
    (hvd : validateLength (form.task_description.getD "") MAX_DESCRIPTION "Description"
      = (true, description))
    (hh : parseHours form.task_hours = some hrs)
    (hlo : (MIN_HOURS : ℚ) ≤ hrs) (hhi : hrs ≤ (MAX_HOURS : ℚ))
    (hp : form.task_project_id = some pstr) (hpne : ¬ (pstr = ""))
    (hpo : oidOf pstr = none)
    (ha : form.task_assigned_to = some astr) (hane : ¬ (astr = ""))
    (hao : oidOf astr = none) :
    (taskAdd form userId now st).1 = OpResult.ok
    ∧ ((taskAdd form userId now st).2.tasks.drop st.tasks.length).map
        (fun t => (t.project_id, t.assigned_to))
      = [(none, none)]
    ∧ (taskAdd form userId now st).2.notifications = st.notifications := by
  rw [taskAdd_valid form userId now st title description hrs hv ht hvd hh hlo hhi]
  have hparts := taskAddSucc_parts form userId now st title description hrs
  refine ⟨rfl, ?_, ?_⟩
  · rw [hparts.1]
    simp [taskAddDoc, hp, hpo, ha, hao]
  · exact hparts.2.2.1 (by rw [ha]; simpa using hao)

/-- C3 (amended): an ill-formed identifier causes every mutating CRUD
endpoint to reject the request with an error message and leave the store
untouched, `/api/task` to answer not-found, and `/api/comments` to answer
the empty list; `/api/history` and the `project_id` filter of
`/api/search` instead silently drop the ill-formed identifier and answer
as if no filter had been given.  No endpoint raises. -/
theorem C3_invalid_id_handling (s : String)
    (hs : oidOf s = none) (hst : oidOf (pyStrip s) = none)
    (form : TaskForm) (nameF descF textF : Option String) (u : String)
    (now : PyDateTime) (st : DBState) (qA sA pA : Option String) :
    taskUpdate s form u now st = (OpResult.error "Invalid task.", st)
    ∧ taskDelete s u now st = (OpResult.error "Invalid task.", st)
    ∧ projectUpdate s nameF descF st = (OpResult.error "Invalid project.", st)
    ∧ projectDelete s st = (OpResult.error "Invalid project.", st)
    ∧ commentAdd (some s) textF u now st
        = (OpResult.error "Invalid task ID (must be 24 hex characters).", st)
    ∧ apiTask s st = none
    ∧ apiComments s st = []
    ∧ apiHistory (some s) st = apiHistory none st
    ∧ apiSearch ⟨qA, sA, pA, some s⟩ st = apiSearch ⟨qA, sA, pA, none⟩ st := by
  refine ⟨?_, ?_, ?_, ?_, ?_, ?_, ?_, ?_, ?_⟩
  · simp [taskUpdate, hs]
  · simp [taskDelete, hs]
  · simp [projectUpdate, hs]
  · simp [projectDelete, hs]
  · simp [commentAdd, hst]
  · simp [apiTask, hs]
  · simp [apiComments, hs]
  · by_cases he : s = "" <;> simp [apiHistory, hs, he]
  · simp [apiSearch, hs, show oidOf "" = none from rfl]

/-- C5: the dashboard statistics equal the declarative counts — completed
counts status "Completed", pending is total minus completed,
high_priority counts priority "High" or "Critical", and overdue counts
tasks with a due date set, status not "Completed" and due date strictly
before today (so a task due yesterday counts when "Pending" and not when
"Completed"). -/
theorem C5_dashboard_stats (ts : List DashTask) (today : PyDate) :
    computeStats ts today =
      { total := ts.length,
        completed := ts.countP (fun t => t.status == "Completed"),
        pending := ts.length - ts.countP (fun t => t.status == "Completed"),
        high_priority := ts.countP (fun t => t.priority == "High" || t.priority == "Critical"),
        overdue := ts.countP (overduePred today) } := by
  simp only [computeStats, overdue_foldl, Nat.zero_add, List.countP_eq_length_filter]

theorem filter_map_congr {α β : Type} (l : List α) (p p' : α → Bool) (f f' : α → β)
    (hp : ∀ x, p x = p' x) (hf : ∀ x, f x = f' x) :
    (l.filter p).map f = (l.filter p').map f' := by
  rw [List.filter_congr (fun x _ => hp x)]
  exact List.map_congr_left (fun x _ => hf x)

/-- C6 (amended): for a query free of regex metacharacters, search
returns exactly the tasks whose title or description contains the query as
a case-insensitive substring and which match every supplied exact status,
priority and well-formed project filter, projected with project name
"No project" when the task has no project. -/
theorem C6_search_regex_substring (args : SearchArgs) (st : DBState) (q : String)
    (hq : validateLength (pyLower (pyStrip (args.q.getD ""))) MAX_SEARCH "Search text"
      = (true, q))
    (hmeta : ∀ c ∈ q.toList, ¬ (pcreMetachars.contains c = true))
    (hnone : ∀ p ∈ st.projects, ¬ (p._id = "None")) :
    apiSearch args st
      = ApiResult.ok
          ((st.tasks.filter
              (searchSpecPred q (pyStrip (args.status.getD ""))
                (pyStrip (args.priority.getD "")) (oidOf (args.project_id.getD "")))).map
            (searchSpecProj st)) := by
  have hdot : '.' ∉ q.toList := fun hm => hmeta '.' hm (by decide)
  have hkeys : ∀ kv ∈ projectsById st, ¬ (kv.1 = "None") := by
    intro kv hkv
    simp only [projectsById, List.mem_map] at hkv
    rcases hkv with ⟨pr, hpr, rfl⟩
    exact hnone pr hpr
  simp only [apiSearch, hq]
  rw [if_neg (by simp : ¬ (((true, q).1 : Bool) = false))]
  refine congrArg ApiResult.ok ?_
  refine filter_map_congr st.tasks _ _ _ _ (fun t => ?_) (fun t => ?_)
  · have hdot2 : '.' ∉ q.data := hdot
    simp [searchSpecPred, substrCI, reSearch_no_dot, hdot, hdot2]
  · rcases hp : t.project_id with _ | p
    · simp only [searchSpecProj, hp]
      congr 1
      exact lookupD_default _ _ _ hkeys
    · simp [searchSpecProj, hp]


/-- C1 (amended): a successful update whose form carries
status "Completed" on a task stored as "Pending" emits exactly one
STATUS_CHANGED history entry with old "Pending" and new "Completed"; a
successful update whose form carries a status equal to the stored status
and a title equal to the stored title emits zero history entries.  Change
detection compares the values read before overwriting against the raw
submitted form values. -/
theorem C1_status_change_history (tid : String) (form : TaskForm) (userId : String)
    (now : PyDateTime) (st : DBState) (oid : String) (task : Task)
    (title description : String) (hrs : ℚ)
    (ho : oidOf tid = some oid)
    (hf : findTask st oid = some task)
    (hv : validateLength (pyStrip (form.task_title.getD "")) MAX_TITLE "Title" = (true, title))
    (ht : ¬ (title = ""))
    (hvd : validateLength (form.task_description.getD "") MAX_DESCRIPTION "Description"
      = (true, description))
    (hh : parseHours form.task_hours = some hrs)
    (hlo : (MIN_HOURS : ℚ) ≤ hrs) (hhi : hrs ≤ (MAX_HOURS : ℚ)) :
    (task.status = "Pending" → form.task_status = some "Completed" →
      ((taskUpdate tid form userId now st).2.history.drop st.history.length).countP
          isPendingCompletedEntry
        = 1)
    ∧ (form.task_status = some task.status → title = task.title →
      (taskUpdate tid form userId now st).2.history = st.history) := by
  rw [taskUpdate_valid tid form userId now st oid task title description hrs
    ho hf hv ht hvd hh hlo hhi]
  constructor
  · intro hstat hfs
    simp only [taskUpdateSucc, hfs, hstat]
    rcases ha : oidOf (form.task_assigned_to.getD "") with _ | a <;>
      by_cases htc : task.title = title <;>
        simp [addHistory, addNotification, htc, isPendingCompletedEntry,
          List.drop_left, List.countP_cons, List.countP_append]
  · intro hfs htt
    simp only [taskUpdateSucc, hfs, htt]
    rcases ha : oidOf (form.task_assigned_to.getD "") with _ | a <;>
      simp [addHistory, addNotification]

/-- C2: every valid task creation appends exactly one CREATED history
entry with empty old value and the new task's title as new value; it
appends exactly one unread task_assigned notification for the parsed
assignee when one was given, and none when the assignee field is empty. -/
theorem C2_create_history_notification (form : TaskForm) (userId : String)
    (now : PyDateTime) (st : DBState) (title description : String) (hrs : ℚ)
    (hv : validateLength (pyStrip (form.task_title.getD "")) MAX_TITLE "Title" = (true, title))
    (ht : ¬ (title = ""))
    (hvd : validateLength (form.task_description.getD "") MAX_DESCRIPTION "Description"
      = (true, description))
    (hh : parseHours form.task_hours = some hrs)
    (hlo : (MIN_HOURS : ℚ) ≤ hrs) (hhi : hrs ≤ (MAX_HOURS : ℚ)) :
    (taskAdd form userId now st).1 = OpResult.ok
    ∧ (taskAdd form userId now st).2.history
        = st.history
          ++ [⟨genOid (st.nextOid + 1), genOid st.nextOid, userId, "CREATED", "", title, now⟩]
    ∧ ((taskAdd form userId now st).2.tasks.drop st.tasks.length).map Task.title = [title]
    ∧ (form.task_assigned_to.getD "" = "" →
        (taskAdd form userId now st).2.notifications = st.notifications)
    ∧ (∀ a, oidOf (form.task_assigned_to.getD "") = some a →
        (taskAdd form userId now st).2.notifications
          = st.notifications
            ++ [⟨genOid (st.nextOid + 2), a, "New task assigned: " ++ title,
                  "task_assigned", false, now⟩]) := by
  rw [taskAdd_valid form userId now st title description hrs hv ht hvd hh hlo hhi]
  have hparts := taskAddSucc_parts form userId now st title description hrs
  refine ⟨rfl, hparts.2.1, ?_, ?_, hparts.2.2.2⟩
  · rw [hparts.1]
    simp [taskAddDoc]
  · intro he
    exact hparts.2.2.1 (by rw [he]; rfl)

/-- C4 (amended): task creation and update persist the submitted status
and priority strings verbatim, defaulting to "Pending"/"Medium" only when
the field is absent; no check restricts them to the documented sets. -/
theorem C4_status_priority_stored_verbatim (form : TaskForm) (userId : String)
    (now : PyDateTime) (st : DBState) (title description : String) (hrs : ℚ)
    (hv : validateLength (pyStrip (form.task_title.getD "")) MAX_TITLE "Title" = (true, title))
    (ht : ¬ (title = ""))
    (hvd : validateLength (form.task_description.getD "") MAX_DESCRIPTION "Description"
      = (true, description))
    (hh : parseHours form.task_hours = some hrs)
    (hlo : (MIN_HOURS : ℚ) ≤ hrs) (hhi : hrs ≤ (MAX_HOURS : ℚ)) :
    ((taskAdd form userId now st).2.tasks.drop st.tasks.length).map
        (fun t => (t.status, t.priority))
      = [(form.task_status.getD "Pending", form.task_priority.getD "Medium")]
    ∧ (∀ tid oid task, oidOf tid = some oid → findTask st oid = some task →
        (findTask (taskUpdate tid form userId now st).2 oid).map
            (fun t => (t.status, t.priority))
          = some (form.task_status.getD "Pending", form.task_priority.getD "Medium")) := by
  constructor
  · rw [taskAdd_valid form userId now st title description hrs hv ht hvd hh hlo hhi]
    rw [(taskAddSucc_parts form userId now st title description hrs).1]
    simp [taskAddDoc]
  · intro tid oid task ho hf
    rw [taskUpdate_valid tid form userId now st oid task title description hrs
      ho hf hv ht hvd hh hlo hhi]
    have hid : (taskUpdateDoc task form now title description hrs)._id = oid := by
      have := List.find?_some hf
      simpa [taskUpdateDoc] using this
    unfold findTask
    rw [taskUpdateSucc_tasks]
    rw [findTask_map_update st.tasks oid _ hid task hf]
    simp [taskUpdateDoc]

/-- C7 evidence: CSV export of zero tasks is the BOM plus the header row
alone, and a task without project/assignee exports "No project" and
"Unassigned"; but the Due column of a task due 2024-05-01 is the full ISO
datetime "2024-05-01T00:00:00", not the ISO date the spec promises —
stored due dates are BSON datetimes and `isinstance(dd, date)` holds for
`datetime`, so `dd.isoformat()` renders date and time. -/
theorem C7_export_csv_due_datetime :
    exportCsv st0 = "\uFEFF" ++ "ID,Title,Status,Priority,Project,Assigned,Due\r\n"
    ∧ exportCsv stT
        = "\uFEFF" ++ "ID,Title,Status,Priority,Project,Assigned,Due\r\n"
          ++ "aaaaaaaaaaaaaaaaaaaaaaaa,T,Pending,Medium,No project,Unassigned,2024-05-01T00:00:00\r\n"
    ∧ ¬ (exportCsv stT
        = "\uFEFF" ++ "ID,Title,Status,Priority,Project,Assigned,Due\r\n"
          ++ "aaaaaaaaaaaaaaaaaaaaaaaa,T,Pending,Medium,No project,Unassigned,2024-05-01\r\n") := by
  refine ⟨by decide, by decide, by decide⟩

/-- C1 counterexample: an update form without a `task_status` field leaves
the stored status "Pending" (the persisted value defaults to "Pending")
and the title unchanged, yet one STATUS_CHANGED history entry with empty
new value is emitted — the claim promises zero entries when neither status
nor title changes. -/
theorem C1_counterexample :
    (taskUpdate aHex { emptyForm with task_title := some "T" } "u" now0 stT).1 = OpResult.ok
    ∧ (findTask (taskUpdate aHex { emptyForm with task_title := some "T" } "u" now0 stT).2 aHex).map
          Task.status
        = some "Pending"
    ∧ (findTask (taskUpdate aHex { emptyForm with task_title := some "T" } "u" now0 stT).2 aHex).map
          Task.title
        = some "T"
    ∧ ((taskUpdate aHex { emptyForm with task_title := some "T" } "u" now0 stT).2.history.map
          (fun e => (e.action, e.old_value, e.new_value)))
        = [("STATUS_CHANGED", "Pending", "")] := by
  refine ⟨by decide, by decide, by decide, by decide⟩

/-- C3 counterexample: `/api/history/zz` on a store holding one history
entry returns that entry — a non-empty ordinary result, not a not-found or
empty one. -/
theorem C3_counterexample :
    apiHistory (some "zz") stH
        = [⟨bHex, aHex, "?", "CREATED", "", "T", "2026-10-12T09:30:00"⟩]
    ∧ ¬ (apiHistory (some "zz") stH = []) := by
  refine ⟨by decide, by decide⟩

/-- C4 counterexample: a creation request with priority "Banana" succeeds
and stores priority "Banana", which is outside the documented set
Low/Medium/High/Critical. -/
theorem C4_counterexample :
    (taskAdd { emptyForm with task_title := some "T", task_priority := some "Banana" }
        "u" now0 st0).1
      = OpResult.ok
    ∧ ((taskAdd { emptyForm with task_title := some "T", task_priority := some "Banana" }
          "u" now0 st0).2.tasks.map Task.priority)
        = ["Banana"]
    ∧ ¬ ("Banana" ∈ ["Low", "Medium", "High", "Critical"]) := by
  refine ⟨by decide, by decide, by decide⟩

/-- C6 counterexample: the query is handed to MongoDB as a regex pattern,
so searching for "." returns a task titled "xyz" although "." is not a
substring of "xyz" or of its empty description. -/
theorem C6_counterexample :
    apiSearch ⟨some ".", none, none, none⟩ stXyz
        = ApiResult.ok [⟨aHex, "xyz", "Pending", "Medium", "No project"⟩]
    ∧ substrCI "." "xyz" = false
    ∧ substrCI "." "" = false := by
  refine ⟨by decide, by decide, by decide⟩

/-- C1 witness: concrete Pending → Completed update emitting exactly one
matching history entry. -/
theorem C1_status_change_history_witness :
    ((taskUpdate aHex c1wform "u" now0 stT).2.history.drop stT.history.length).countP
        isPendingCompletedEntry
      = 1 := by
  have h := C1_status_change_history aHex c1wform "u" now0 stT aHex taskT "T" "" 0
    (by decide) (by decide) (by decide) (by decide) (by decide) (by decide)
    (by decide) (by decide)
  exact h.1 (by decide) rfl

/-- C2 witness: concrete creation with an assignee. -/
theorem C2_create_history_notification_witness :
    (taskAdd c2wform "u1" now0 st0).2.history
        = st0.history ++ [⟨genOid 1, genOid 0, "u1", "CREATED", "", "Alpha", now0⟩]
    ∧ (taskAdd c2wform "u1" now0 st0).2.notifications
        = st0.notifications
          ++ [⟨genOid 2, bHex, "New task assigned: Alpha", "task_assigned", false, now0⟩] := by
  have h := C2_create_history_notification c2wform "u1" now0 st0 "Alpha" "" 0
    (by decide) (by decide) (by decide) (by decide) (by decide) (by decide)
  exact ⟨h.2.1, h.2.2.2.2 bHex (by decide)⟩

/-- C3 witness: concrete ill-formed identifier "zz". -/
theorem C3_invalid_id_handling_witness :
    taskUpdate "zz" emptyForm "u" now0 stT = (OpResult.error "Invalid task.", stT)
    ∧ apiTask "zz" stT = none
    ∧ apiComments "zz" stT = []
    ∧ apiHistory (some "zz") stT = apiHistory none stT := by
  have h := C3_invalid_id_handling "zz" (by decide) (by decide) emptyForm
    none none none "u" now0 stT none none none
  exact ⟨h.1, h.2.2.2.2.2.1, h.2.2.2.2.2.2.1, h.2.2.2.2.2.2.2.1⟩

/-- C4 witness: concrete create and update with values from the
documented sets, stored verbatim. -/
theorem C4_status_priority_stored_verbatim_witness :
    ((taskAdd c4wform "u" now0 stT).2.tasks.drop stT.tasks.length).map
        (fun t => (t.status, t.priority))
      = [("In Progress", "High")]
    ∧ (findTask (taskUpdate aHex c4wform "u" now0 stT).2 aHex).map
        (fun t => (t.status, t.priority))
      = some ("In Progress", "High") := by
  have h := C4_status_priority_stored_verbatim c4wform "u" now0 stT "T" "" 0
    (by decide) (by decide) (by decide) (by decide) (by decide) (by decide)
  exact ⟨by simpa using h.1, by simpa using h.2 aHex aHex taskT (by decide) (by decide)⟩

/-- C6 witness: the spec's example — `q="alpha"` against "Alpha rollout"
and "Beta rollout". -/
theorem C6_search_regex_substring_witness :
    apiSearch ⟨some "alpha", none, none, none⟩ stAB
      = ApiResult.ok
          ((stAB.tasks.filter (searchSpecPred "alpha" "" "" none)).map
            (searchSpecProj stAB)) := by
  have h := C6_search_regex_substring ⟨some "alpha", none, none, none⟩ stAB "alpha"
    (by decide) (by decide) (by simp [stAB])
  simpa using h

/-- C8 witness: a concrete 101-character title on create and update. -/
theorem C8_overlong_title_rejected_witness :
    taskAdd c8wform "u" now0 stT
        = (OpResult.error "Title must be at most 100 characters (got 101).", stT)
    ∧ taskUpdate aHex c8wform "u" now0 stT
        = (OpResult.error "Title must be at most 100 characters (got 101).", stT) := by
  have h := C8_overlong_title_rejected c8wform "u" now0 stT
    "Title must be at most 100 characters (got 101)." (by decide)
  exact ⟨h.1, h.2 aHex aHex taskT (by decide) (by decide)⟩

/-- C9 witness: the unparsable date "not-a-date" on create and update. -/
theorem C9_invalid_due_date_fallback_witness :
    ((taskAdd c9wform "u" now0 stT).2.tasks.drop stT.tasks.length).map Task.due_date = [none]
    ∧ (findTask (taskUpdate aHex c9wform "u" now0 stT).2 aHex).map Task.due_date
        = some taskT.due_date := by
  have h := C9_invalid_due_date_fallback c9wform "u" now0 stT "T" "" 0 "not-a-date"
    (by decide) (by decide) (by decide) (by decide) (by decide) (by decide)
    (by decide) (by decide) (by decide)
  refine ⟨h.2.1, ?_⟩
  have hm : ∀ dt, taskT.due_date = some dt → dt = ⟨dt.date, 0, 0, 0⟩ := by
    intro dt hdt
    have : some (⟨⟨2024, 5, 1⟩, 0, 0, 0⟩ : PyDateTime) = some dt := hdt
    cases this
    rfl
  exact (h.2.2 aHex aHex taskT (by decide) (by decide) hm).2

/-- C10 witness: concrete ill-formed project and assignee values. -/
theorem C10_invalid_refs_treated_unset_witness :
    (taskAdd c10wform "u" now0 st0).1 = OpResult.ok
    ∧ ((taskAdd c10wform "u" now0 st0).2.tasks.drop st0.tasks.length).map
        (fun t => (t.project_id, t.assigned_to))
      = [(none, none)]
    ∧ (taskAdd c10wform "u" now0 st0).2.notifications = st0.notifications := by
  exact C10_invalid_refs_treated_unset c10wform "u" now0 st0 "T" "" 0
    "badproject" "baduser"
    (by decide) (by decide) (by decide) (by decide) (by decide) (by decide)
    (by decide) (by decide) (by decide) (by decide) (by decide) (by decide)

end TaskManager
